import Mathlib

/-!
Verification development for the smart-file-organizer repository.

The four Python modules are shallowly embedded:
* `renamer.py`   — sanitization, collision resolution, `organize_file`;
* `extractors.py` — `detect_file_type`, backend normalization, `extract_text`;
* `classifier.py` — `classify_file`, `_parse_response`, `_clean_category`,
  `_clean_filename`;
* `organize.py`  — `_process_single_file`, `_find_files_to_process` (extension
  filter), `_organize_failed_files`, and the run-level filesystem effects.

Strings are modelled as `List Char` (`Str`).  External collaborators
(the OCR/PDF/DOCX/txt backends, the model reply, the `json.loads` parser and
the filesystem-existence check) are parameters of the embedded functions, as
the spec describes them: opaque boundary functions.  Filesystem mutation is
modelled by an explicit operation trace (`FsOp`) and a state of existing
paths, so frame claims can be stated and settled.
-/

namespace SFO

/-- Strings from the Python source are modelled as lists of characters. -/
abbrev Str := List Char

/-- Coercion helper from Lean string literals to the `Str` model. -/
def str (s : String) : Str := s.toList

/-! ### Generic character-list helpers (Python `str` methods) -/

/-- Python `str.strip()` / `str.strip(chars)` removal of a trailing run:
drop the maximal suffix of characters belonging to `cs`. -/
def dropTrailingChars (cs : List Char) : Str → Str
  | [] => []
  | c :: rest =>
    let r := dropTrailingChars cs rest
    if r.isEmpty ∧ c ∈ cs then [] else c :: r

/-- Python `str.strip(chars)`: remove leading and trailing characters
belonging to `cs`. -/
def stripChars (cs : List Char) (s : Str) : Str :=
  dropTrailingChars cs (s.dropWhile (fun c => decide (c ∈ cs)))

/-- Characters Python's `str.strip()` (no argument) removes: whitespace. -/
def pySpaceChars : List Char := [' ', '\t', '\n', '\x0b', '\x0c', '\r']

/-- Python `str.strip()`: remove leading and trailing whitespace. -/
def stripWS (s : Str) : Str := stripChars pySpaceChars s

/-- Python `str.lower()` (ASCII case folding suffices for the extension
strings this program compares). -/
def lowerStr (s : Str) : Str := s.map Char.toLower

/-- Python `a.isPrefixOf`-style check used to implement substring search. -/
def isPrefixL : Str → Str → Bool
  | [], _ => true
  | _ :: _, [] => false
  | a :: as, b :: bs => a = b && isPrefixL as bs

/-- Python `pat in s` substring containment. -/
def containsSub (pat : Str) : Str → Bool
  | [] => pat.isEmpty
  | c :: rest => isPrefixL pat (c :: rest) || containsSub pat rest

/-! ### Sanitizer (`renamer.py`, `FileRenamer._sanitize_folder_name` /
`FileRenamer._sanitize_filename`) -/

/-- The `problematic_chars` list of `renamer.py` lines 67 and 86. -/
def problematicChars : List Char := ['/', '\\', ':', '*', '?', '\"', '<', '>', '|']

/-- The sequential `filename.replace(char, '_')` loop over
`problematic_chars`.  The replacement character `_` is not itself in the
list, so the sequential replaces are equivalent to one character map. -/
def replaceBad (s : Str) : Str :=
  s.map (fun c => if c ∈ problematicChars then '_' else c)

/-- Python `filename.replace(' ', '_')` (renamer.py line 91). -/
def spacesToU (s : Str) : Str :=
  s.map (fun c => if c = ' ' then '_' else c)

/-- Python `'__' in filename` (the loop guard at renamer.py line 94). -/
def hasDU : Str → Bool
  | [] => false
  | [_] => false
  | c1 :: c2 :: rest =>
    if c1 = '_' ∧ c2 = '_' then true else hasDU (c2 :: rest)

/-- One pass of `filename.replace('__', '_')`: left-to-right,
non-overlapping (renamer.py line 95). -/
def repOnce : Str → Str
  | [] => []
  | [c] => [c]
  | c1 :: c2 :: rest =>
    if c1 = '_' ∧ c2 = '_' then '_' :: repOnce rest
    else c1 :: repOnce (c2 :: rest)

/-- The `while '__' in filename:` loop of renamer.py lines 94-95, with an
explicit iteration bound.  Each firing pass strictly shrinks the string
(`repOnce_length_lt` below), so `s.length` iterations always suffice and the
fuel is never exhausted: `collapseU` computes exactly the loop's fixpoint. -/
def collapseUFuel : Nat → Str → Str
  | 0, s => s
  | f + 1, s => if hasDU s then collapseUFuel f (repOnce s) else s

/-- Python `while '__' in filename: filename = filename.replace('__', '_')`. -/
def collapseU (s : Str) : Str := collapseUFuel s.length s

/-- Model of `FileRenamer._sanitize_folder_name` (renamer.py lines 64-81):
replace problematic characters, strip leading/trailing `.` and space,
truncate to 100, fall back to `"Uncategorized"` when empty. -/
def sanitize_folder_name (s : Str) : Str :=
  let s1 := replaceBad s
  let s2 := stripChars ['.', ' '] s1
  let s3 := s2.take 100
  if s3.isEmpty then str "Uncategorized" else s3

/-- Model of `FileRenamer._sanitize_filename` (renamer.py lines 83-107):
replace problematic characters, spaces to underscores, collapse `__` runs,
strip leading/trailing `_`, `.` and space, truncate to 80, fall back to
`"unnamed_file"` when empty. -/
def sanitize_filename (s : Str) : Str :=
  let s1 := replaceBad s
  let s2 := spacesToU s1
  let s3 := collapseU s2
  let s4 := stripChars ['_', '.', ' '] s3
  let s5 := s4.take 80
  if s5.isEmpty then str "unnamed_file" else s5

/-! ### Lemmas about the sanitizer building blocks -/

theorem repOnce_length_le (s : Str) : (repOnce s).length ≤ s.length := by
  match s with
  | [] => simp [repOnce]
  | [c] => simp [repOnce]
  | c1 :: c2 :: rest =>
    simp only [repOnce]
    split
    · have := repOnce_length_le rest
      simp only [List.length_cons]
      omega
    · have := repOnce_length_le (c2 :: rest)
      simp only [List.length_cons] at this ⊢
      omega

theorem repOnce_length_lt (s : Str) (h : hasDU s = true) :
    (repOnce s).length < s.length := by
  match s with
  | [] => simp [hasDU] at h
  | [c] => simp [hasDU] at h
  | c1 :: c2 :: rest =>
    simp only [repOnce]
    split
    · have := repOnce_length_le rest
      simp only [List.length_cons]
      omega
    · rename_i hne
      simp only [hasDU, if_neg hne] at h
      have := repOnce_length_lt (c2 :: rest) h
      simp only [List.length_cons] at this ⊢
      omega

theorem collapseUFuel_noDU (f : Nat) (s : Str) (h : s.length ≤ f) :
    hasDU (collapseUFuel f s) = false := by
  induction f generalizing s with
  | zero =>
    have : s = [] := List.length_eq_zero.mp (Nat.le_zero.mp h)
    subst this
    simp [collapseUFuel, hasDU]
  | succ f ih =>
    simp only [collapseUFuel]
    by_cases hd : hasDU s = true
    · rw [if_pos hd]
      exact ih _ (by have := repOnce_length_lt s hd; omega)
    · rw [if_neg hd]
      exact Bool.not_eq_true _ |>.mp hd

theorem collapseU_noDU (s : Str) : hasDU (collapseU s) = false :=
  collapseUFuel_noDU s.length s le_rfl

theorem mem_repOnce {c : Char} (s : Str) (h : c ∈ repOnce s) : c ∈ s := by
  match s with
  | [] => simpa [repOnce] using h
  | [a] => simpa [repOnce] using h
  | a :: b :: rest =>
    simp only [repOnce] at h
    split at h
    · rename_i hab
      rcases List.mem_cons.mp h with h | h
      · simp [hab.1, h]
      · have := mem_repOnce rest h
        simp [this]
    · rcases List.mem_cons.mp h with h | h
      · simp [h]
      · have := mem_repOnce (b :: rest) h
        simp only [List.mem_cons] at this ⊢
        tauto

theorem mem_collapseUFuel {c : Char} (f : Nat) (s : Str)
    (h : c ∈ collapseUFuel f s) : c ∈ s := by
  induction f generalizing s with
  | zero => simpa [collapseUFuel] using h
  | succ f ih =>
    simp only [collapseUFuel] at h
    split at h
    · exact mem_repOnce s (ih _ h)
    · exact h

theorem mem_collapseU {c : Char} (s : Str) (h : c ∈ collapseU s) : c ∈ s :=
  mem_collapseUFuel s.length s h

theorem mem_dropWhile {c : Char} (p : Char → Bool) (s : Str)
    (h : c ∈ s.dropWhile p) : c ∈ s := by
  induction s with
  | nil => simpa using h
  | cons a l ih =>
    simp only [List.dropWhile] at h
    split at h
    · simp [ih h]
    · exact h

theorem mem_dropTrailing {c : Char} (cs : List Char) (s : Str)
    (h : c ∈ dropTrailingChars cs s) : c ∈ s := by
  induction s with
  | nil => simpa [dropTrailingChars] using h
  | cons a l ih =>
    simp only [dropTrailingChars] at h
    split at h
    · simp at h
    · rcases List.mem_cons.mp h with h | h
      · simp [h]
      · simp [ih h]

theorem hasDU_cons (c : Char) {s : Str} (h : hasDU s = true) :
    hasDU (c :: s) = true := by
  cases s with
  | nil => simp [hasDU] at h
  | cons b q =>
    simp only [hasDU]
    split
    · rfl
    · exact h

theorem cons_of_take {n : Nat} {s : Str} {c : Char} {q : Str}
    (h : s.take n = c :: q) : ∃ r, s = c :: r ∧ q = r.take (n - 1) := by
  cases s with
  | nil => simp at h
  | cons a l =>
    cases n with
    | zero => simp at h
    | succ m =>
      simp only [List.take] at h
      injection h with h1 h2
      exact ⟨l, by simp [h1], by simp [← h2]⟩

theorem hasDU_take (n : Nat) (s : Str) (h : hasDU (s.take n) = true) :
    hasDU s = true := by
  induction s generalizing n with
  | nil => simpa using h
  | cons a l ih =>
    cases n with
    | zero => simp [hasDU] at h
    | succ m =>
      simp only [List.take] at h
      cases hl : l.take m with
      | nil => rw [hl] at h; simp [hasDU] at h
      | cons b q =>
        obtain ⟨l', hl', -⟩ := cons_of_take hl
        subst hl'
        rw [hl] at h
        by_cases hab : a = '_' ∧ b = '_'
        · simp [hasDU, hab]
        · simp only [hasDU, if_neg hab] at h ⊢
          rw [← hl] at h
          exact ih m h

theorem hasDU_dropWhile (p : Char → Bool) (s : Str)
    (h : hasDU (s.dropWhile p) = true) : hasDU s = true := by
  induction s with
  | nil => simpa using h
  | cons a l ih =>
    simp only [List.dropWhile] at h
    split at h
    · exact hasDU_cons a (ih h)
    · exact h

theorem dropTrailing_cons_of_cons {cs : List Char} {s : Str} {c : Char} {q : Str}
    (h : dropTrailingChars cs s = c :: q) : ∃ r, s = c :: r := by
  cases s with
  | nil => simp [dropTrailingChars] at h
  | cons a l =>
    simp only [dropTrailingChars] at h
    split at h
    · simp at h
    · injection h with h1 _
      exact ⟨l, by rw [h1]⟩

theorem hasDU_dropTrailing (cs : List Char) (s : Str)
    (h : hasDU (dropTrailingChars cs s) = true) : hasDU s = true := by
  induction s with
  | nil => simpa [dropTrailingChars] using h
  | cons a l ih =>
    simp only [dropTrailingChars] at h
    split at h
    · simp [hasDU] at h
    · cases hr : dropTrailingChars cs l with
      | nil => rw [hr] at h; simp [hasDU] at h
      | cons b q =>
        obtain ⟨l', hl'⟩ := dropTrailing_cons_of_cons hr
        subst hl'
        rw [hr] at h
        by_cases hab : a = '_' ∧ b = '_'
        · simp [hasDU, hab]
        · simp only [hasDU, if_neg hab] at h ⊢
          rw [← hr] at h
          exact ih h

theorem dropWhile_head_false {p : Char → Bool} {s : Str} {c : Char} {q : Str}
    (h : s.dropWhile p = c :: q) : p c = false := by
  induction s with
  | nil => simp at h
  | cons a l ih =>
    simp only [List.dropWhile] at h
    split at h
    · exact ih h
    · rename_i hp
      injection h with h1 _
      rw [← h1]
      exact hp

theorem stripChars_head_notMem {cs : List Char} {s : Str} {c : Char} {q : Str}
    (h : stripChars cs s = c :: q) : c ∉ cs := by
  unfold stripChars at h
  obtain ⟨r, hr⟩ := dropTrailing_cons_of_cons h
  have := dropWhile_head_false hr
  simpa using this

theorem mem_spacesToU_replaceBad {c : Char} (s : Str)
    (h : c ∈ spacesToU (replaceBad s)) : c ∉ problematicChars ∧ c ≠ ' ' := by
  unfold spacesToU at h
  obtain ⟨b, hbmem, hb⟩ := List.mem_map.mp h
  unfold replaceBad at hbmem
  obtain ⟨a, -, ha⟩ := List.mem_map.mp hbmem
  subst hb
  subst ha
  by_cases hbad : a ∈ problematicChars
  · rw [if_pos hbad]
    decide
  · rw [if_neg hbad]
    by_cases hsp : a = ' '
    · subst hsp
      decide
    · rw [if_neg hsp]
      exact ⟨hbad, hsp⟩

/-- Claim C4 (amended): for every string `s`, `sanitize_filename s` contains
no character from `/ \ : * ? " < > |` and no space at all, contains no
substring `__`, is nonempty, does not start with `_`, `.` or space, has
length at most 80, and equals exactly `"unnamed_file"` when the input is
empty after cleaning.  Because truncation to 80 characters happens after the
strip step (renamer.py line 98 strips, line 101 truncates), the result can
end with `_` or `.`, so the original claim's "nor ends with" conjunct does
not hold; it is refuted at a concrete input by
`sanitize_filename_trailing_dot`. -/
theorem sanitize_filename_spec (s : Str) :
    (∀ c, c ∈ sanitize_filename s → c ∉ problematicChars ∧ c ≠ ' ')
    ∧ hasDU (sanitize_filename s) = false
    ∧ sanitize_filename s ≠ []
    ∧ (∀ c q, sanitize_filename s = c :: q → c ≠ '_' ∧ c ≠ '.' ∧ c ≠ ' ')
    ∧ (sanitize_filename s).length ≤ 80
    ∧ (stripChars ['_', '.', ' '] (collapseU (spacesToU (replaceBad s))) = [] →
        sanitize_filename s = str "unnamed_file") := by
  have hunf : sanitize_filename s =
      (if ((stripChars ['_', '.', ' ']
              (collapseU (spacesToU (replaceBad s)))).take 80).isEmpty
       then str "unnamed_file"
       else (stripChars ['_', '.', ' ']
              (collapseU (spacesToU (replaceBad s)))).take 80) := rfl
  by_cases hemp : ((stripChars ['_', '.', ' ']
      (collapseU (spacesToU (replaceBad s)))).take 80).isEmpty
  · have hval : sanitize_filename s = str "unnamed_file" := by
      rw [hunf, if_pos hemp]
    rw [hval]
    refine ⟨by decide, by decide, by decide, ?_, by decide, fun _ => rfl⟩
    intro c q hcq
    have hu : str "unnamed_file" = 'u' :: str "nnamed_file" := by decide
    rw [hu] at hcq
    injection hcq with h1 _
    rw [← h1]
    decide
  · have hval : sanitize_filename s =
        (stripChars ['_', '.', ' '] (collapseU (spacesToU (replaceBad s)))).take 80 := by
      rw [hunf, if_neg hemp]
    rw [hval]
    refine ⟨?_, ?_, ?_, ?_, ?_, ?_⟩
    · intro c hc
      have hc1 := List.take_subset 80 _ hc
      unfold stripChars at hc1
      have hc2 := mem_dropWhile _ _ (mem_dropTrailing _ _ hc1)
      exact mem_spacesToU_replaceBad _ (mem_collapseU _ hc2)
    · cases hDU : hasDU ((stripChars ['_', '.', ' ']
          (collapseU (spacesToU (replaceBad s)))).take 80) with
      | false => rfl
      | true =>
        exfalso
        have h1 := hasDU_take _ _ hDU
        unfold stripChars at h1
        have h2 := hasDU_dropWhile _ _ (hasDU_dropTrailing _ _ h1)
        rw [collapseU_noDU] at h2
        exact Bool.false_ne_true h2
    · intro hnil
      rw [hnil] at hemp
      exact hemp rfl
    · intro c q hcq
      obtain ⟨r, hr, -⟩ := cons_of_take hcq
      have hne := stripChars_head_notMem hr
      refine ⟨?_, ?_, ?_⟩ <;> intro hh <;> subst hh <;> simp at hne
    · simp only [List.length_take]
      omega
    · intro h0
      rw [h0] at hemp
      exact absurd rfl hemp

set_option maxRecDepth 8192 in
/-- Claim C4 counterexample: the input of 79 `a`s followed by `.b` has 81
cleaned characters, so the truncation to 80 (which the code performs after
stripping) cuts exactly after the dot — the sanitized stem ends with `.`,
contradicting the claim that the result never ends with `_`, `.` or
space. -/
theorem sanitize_filename_trailing_dot :
    sanitize_filename (List.replicate 79 'a' ++ ['.', 'b']) =
      List.replicate 79 'a' ++ ['.']
    ∧ (List.replicate 79 'a' ++ ['.']).getLast? = some '.' := by decide

/-- Witness for `sanitize_filename_spec` at concrete inputs. -/
theorem sanitize_filename_spec_witness :
    hasDU (sanitize_filename (str "a  b")) = false ∧
    sanitize_filename (str " ") = str "unnamed_file" :=
  ⟨(sanitize_filename_spec (str "a  b")).2.1,
   (sanitize_filename_spec (str " ")).2.2.2.2.2 (by decide)⟩

/-! ### Collision resolver (`renamer.py`, `FileRenamer._handle_naming_collision`) -/

/-- Decimal representation of a natural number (Python `f"{n}"`). -/
def natToStr (n : Nat) : Str := (Nat.repr n).toList

/-- Python `f"{counter:03d}"`: zero-pad to at least three digits. -/
def pad3 (n : Nat) : Str :=
  if n < 10 then str "00" ++ natToStr n
  else if n < 100 then str "0" ++ natToStr n
  else natToStr n

/-- A target path split the way `_handle_naming_collision` splits its
argument with `.stem`, `.suffix` and `.parent` (renamer.py lines 114-116). -/
structure PPath where
  parent : Str
  stem : Str
  ext : Str
deriving DecidableEq

/-- Rendering a split path back to a flat string, `parent / (stem + ext)`. -/
def PPath.render (p : PPath) : Str := p.parent ++ str "/" ++ (p.stem ++ p.ext)

/-- The probe path `parent_dir / f"{base_name}_{counter:03d}{extension}"`
built at renamer.py lines 120-121. -/
def probe (p : PPath) (counter : Nat) : Str :=
  p.parent ++ str "/" ++ (p.stem ++ str "_" ++ pad3 counter ++ p.ext)

/-- The timestamp fallback path `f"{base_name}_{timestamp}{extension}"` of
renamer.py lines 129-132, with `int(time.time())` passed in as `ts`. -/
def tsProbe (p : PPath) (ts : Nat) : Str :=
  p.parent ++ str "/" ++ (p.stem ++ str "_" ++ natToStr ts ++ p.ext)

/-- The `while True:` loop of `_handle_naming_collision` (renamer.py lines
118-132), with the counter explicit.  `fuel` bounds the recursion; the loop
body stops by itself once the counter would exceed 999, so from the actual
entry point (`counter = 1`, `fuel = 1000`) the fuel is never exhausted and
the definition computes exactly what the Python loop computes. -/
def collisionLoop (ex : Str → Bool) (p : PPath) (ts : Nat) :
    Nat → Nat → Str
  | _, 0 => p.render
  | counter, fuel + 1 =>
    if ex (probe p counter) = false then probe p counter
    else if counter + 1 > 999 then tsProbe p ts
    else collisionLoop ex p ts (counter + 1) fuel

/-- Model of `FileRenamer._handle_naming_collision` (renamer.py lines 109-132),
parameterized by the filesystem existence check `ex` (the spec's
"existence check as a dependency") and by the value `int(time.time())`
would produce (`ts`). -/
def handle_naming_collision (ex : Str → Bool) (p : PPath) (ts : Nat) : Str :=
  if ex p.render = false then p.render
  else collisionLoop ex p ts 1 1000

theorem collisionLoop_finds (ex : Str → Bool) (p : PPath) (ts : Nat) :
    ∀ (d counter fuel k : Nat), counter + d = k → k ≤ 999 → d < fuel →
      ex (probe p k) = false →
      (∀ j, counter ≤ j → j < k → ex (probe p j) = true) →
      collisionLoop ex p ts counter fuel = probe p k := by
  intro d
  induction d with
  | zero =>
    intro counter fuel k hck hk hfuel hexk hprev
    cases fuel with
    | zero => omega
    | succ f =>
      have hck' : counter = k := by omega
      subst hck'
      simp [collisionLoop, hexk]
  | succ d ih =>
    intro counter fuel k hck hk hfuel hexk hprev
    cases fuel with
    | zero => omega
    | succ f =>
      have hcl : counter < k := by omega
      have hexc : ex (probe p counter) = true := hprev counter le_rfl hcl
      simp only [collisionLoop]
      rw [if_neg (by simp [hexc]), if_neg (by omega : ¬counter + 1 > 999)]
      exact ih (counter + 1) f k (by omega) hk (by omega) hexk
        (fun j hj1 hj2 => hprev j (by omega) hj2)

theorem collisionLoop_exhausted (ex : Str → Bool) (p : PPath) (ts : Nat) :
    ∀ (d counter fuel : Nat), counter + d = 999 → d < fuel →
      (∀ j, counter ≤ j → j ≤ 999 → ex (probe p j) = true) →
      collisionLoop ex p ts counter fuel = tsProbe p ts := by
  intro d
  induction d with
  | zero =>
    intro counter fuel h999 hfuel hall
    cases fuel with
    | zero => omega
    | succ f =>
      have hc : counter = 999 := by omega
      subst hc
      have h : ex (probe p 999) = true := hall 999 le_rfl le_rfl
      simp only [collisionLoop]
      rw [if_neg (by simp [h]), if_pos (by omega : 999 + 1 > 999)]
  | succ d ih =>
    intro counter fuel h999 hfuel hall
    cases fuel with
    | zero => omega
    | succ f =>
      have h : ex (probe p counter) = true := hall counter le_rfl (by omega)
      simp only [collisionLoop]
      rw [if_neg (by simp [h]), if_neg (by omega : ¬counter + 1 > 999)]
      exact ih (counter + 1) f (by omega) (by omega)
        (fun j h1 h2 => hall j (by omega) h2)

/-- Claim C5: for every existence check and every desired path, the collision
resolver returns the desired path unchanged when it does not exist;
otherwise it returns the first of `stem_001.ext`, ..., `stem_999.ext`
(zero-padded three-digit counter, increasing) that does not exist; and when
all 999 probes exist it returns `stem_<ts>.ext` built from the epoch
timestamp — unconditionally, with no existence check on that fallback
(the conclusion holds for arbitrary `ex`, in particular when `ex` also
reports the fallback path as existing). -/
theorem handle_naming_collision_spec (ex : Str → Bool) (p : PPath) (ts : Nat) :
    (ex p.render = false → handle_naming_collision ex p ts = p.render)
    ∧ (∀ k, 1 ≤ k → k ≤ 999 → ex p.render = true →
        ex (probe p k) = false →
        (∀ j, 1 ≤ j → j < k → ex (probe p j) = true) →
        handle_naming_collision ex p ts = probe p k)
    ∧ (ex p.render = true → (∀ j, 1 ≤ j → j ≤ 999 → ex (probe p j) = true) →
        handle_naming_collision ex p ts = tsProbe p ts) := by
  refine ⟨?_, ?_, ?_⟩
  · intro h
    simp [handle_naming_collision, h]
  · intro k hk1 hk9 hex hexk hprev
    unfold handle_naming_collision
    rw [if_neg (by simp [hex])]
    exact collisionLoop_finds ex p ts (k - 1) 1 1000 k (by omega) hk9 (by omega)
      hexk (fun j h1 h2 => hprev j h1 h2)
  · intro hex hall
    unfold handle_naming_collision
    rw [if_neg (by simp [hex])]
    exact collisionLoop_exhausted ex p ts 998 1 1000 (by omega) (by omega)
      (fun j h1 h2 => hall j h1 h2)

/-- Witness for `handle_naming_collision_spec`: with only `out/report.pdf`
existing the resolver yields `out/report_001.pdf`; with nothing existing it
returns the desired path unchanged. -/
theorem handle_naming_collision_spec_witness :
    handle_naming_collision (fun s => decide (s = str "out/report.pdf"))
      ⟨str "out", str "report", str ".pdf"⟩ 1700000000 = str "out/report_001.pdf"
    ∧ handle_naming_collision (fun _ => false)
      ⟨str "out", str "report", str ".pdf"⟩ 0 = str "out/report.pdf" := by
  constructor
  · exact (handle_naming_collision_spec _ _ _).2.1 1 (by decide) (by decide)
      (by decide) (by decide) (fun j h1 h2 => absurd h2 (by omega))
  · exact (handle_naming_collision_spec _ _ _).1 rfl

/-! ### Text extraction (`extractors.py`) -/

/-- The image extension list of extractors.py line 33. -/
def image_extensions : List Str :=
  [str ".jpg", str ".jpeg", str ".png", str ".bmp", str ".tiff", str ".gif"]

/-- Model of `detect_file_type` (extractors.py lines 29-42): dispatch on the
lowercased extension. -/
def detect_file_type (suffix : Str) : Str :=
  let s := lowerStr suffix
  if s ∈ image_extensions then str "image"
  else if s = str ".pdf" then str "pdf"
  else if s = str ".docx" ∨ s = str ".doc" then str "docx"
  else if s = str ".txt" then str "text"
  else str "unknown"

/-- The normalization `return text.strip() if text else None` shared by all
four extraction backends (extractors.py lines 54, 68, 83, 94).  `raw = none`
models a backend that is unavailable or raised (every `except` branch
returns `None`); `raw = some t` models a backend that returned the string
`t`.  Note only a falsy (empty) `t` maps to `None`; nonempty all-whitespace
`t` maps to the empty string. -/
def backend_normalize (raw : Option Str) : Option Str :=
  match raw with
  | none => none
  | some t => if t.isEmpty then none else some (stripWS t)

/-- Raw per-file results of the four extraction backends: what
`pytesseract.image_to_string`, `pdf_extract_text`, the docx paragraph join,
and `f.read()` would return for this file (`none` = unavailable/raised). -/
structure Backends where
  image : Option Str
  pdf : Option Str
  docx : Option Str
  txt : Option Str

/-- Model of `extract_text` (extractors.py lines 100-121). -/
def extract_text (b : Backends) (suffix : Str) : Str × Option Str :=
  let ft := detect_file_type suffix
  if ft = str "image" then (ft, backend_normalize b.image)
  else if ft = str "pdf" then (ft, backend_normalize b.pdf)
  else if ft = str "docx" then (ft, backend_normalize b.docx)
  else if ft = str "text" then (ft, backend_normalize b.txt)
  else (ft, none)

/-- The allow-list of `_find_files_to_process` (organize.py lines 112-113). -/
def supported_extensions : List Str :=
  [str ".jpg", str ".jpeg", str ".png", str ".bmp", str ".tiff", str ".gif",
   str ".pdf", str ".docx", str ".doc", str ".txt"]

/-- The per-file extension condition of discovery (organize.py line 117):
`file_path.suffix.lower() in supported_extensions`. -/
def discovery_keeps (suffix : Str) : Bool :=
  decide (lowerStr suffix ∈ supported_extensions)

/-- Claim C10: extension matching is case-insensitive at both decision
points — every extension that lowercases into the allow-list is kept by
discovery, and `detect_file_type` gives it the same type tag as its
lowercase form. -/
theorem extension_case_insensitive (suffix : Str)
    (h : lowerStr suffix ∈ supported_extensions) :
    discovery_keeps suffix = true
    ∧ detect_file_type suffix = detect_file_type (lowerStr suffix) := by
  constructor
  · simp [discovery_keeps, h]
  · have hidem : lowerStr (lowerStr suffix) = lowerStr suffix := by
      simp only [supported_extensions, List.mem_cons, List.mem_singleton,
        List.not_mem_nil, or_false] at h
      rcases h with h | h | h | h | h | h | h | h | h | h <;> rw [h] <;> decide
    unfold detect_file_type
    rw [hidem]

/-- Witness for `extension_case_insensitive` at `.TXT`. -/
theorem extension_case_insensitive_witness :
    discovery_keeps (str ".TXT") = true
    ∧ detect_file_type (str ".TXT") = detect_file_type (lowerStr (str ".TXT")) :=
  ⟨(extension_case_insensitive (str ".TXT") (by decide)).1,
   (extension_case_insensitive (str ".TXT") (by decide)).2⟩

/-- Claim C7 counterexample: a txt backend returning a single space (a
nonempty, all-whitespace string) makes `extract_text` return the empty
string, not absence — `return text.strip() if text else None`
(extractors.py line 94) normalizes only falsy (empty) raw text to `None`,
so an all-whitespace result is `some ""` rather than `none` as claimed. -/
theorem extract_whitespace_not_absent :
    (extract_text ⟨none, none, none, some (str " ")⟩ (str ".txt")).2 =
      some ([] : Str)
    ∧ some ([] : Str) ≠ (none : Option Str) := by decide

/-! ### Classifier (`classifier.py`) -/

/-- Model of `FileClassifier._clean_category` (classifier.py lines 126-132): strip,
truncate to 50, then replace `/` and `\` (only those two) by `_`. -/
def clean_category (category : Str) : Str :=
  let c := (stripWS category).take 50
  c.map (fun ch => if ch = '/' ∨ ch = '\\' then '_' else ch)

/-- Model of `FileClassifier._clean_filename` (classifier.py lines 134-149): strip,
truncate to 80, spaces to `_`, replace problematic characters, collapse
`__` runs, strip leading/trailing `_` (only underscores). -/
def clean_filename (filename : Str) : Str :=
  let s1 := (stripWS filename).take 80
  let s2 := spacesToU s1
  let s3 := replaceBad s2
  let s4 := collapseU s3
  stripChars ['_'] s4

/-- Python `str.find(c)` as an optional index. -/
def firstIdxOf (c : Char) : Str → Option Nat
  | [] => none
  | a :: rest => if a = c then some 0 else (firstIdxOf c rest).map (· + 1)

/-- Python `str.rfind(c)` as an optional index. -/
def lastIdxOf (c : Char) : Str → Option Nat
  | [] => none
  | a :: rest =>
    match lastIdxOf c rest with
    | some i => some (i + 1)
    | none => if a = c then some 0 else none

/-- The JSON slice `response_content[start_idx:end_idx]` of classifier.py
line 105, with `start_idx` the first `\x7b` and `end_idx` one past the last
`\x7d` of the stripped reply; `[]` when either brace is missing (classifier.py
line 101 returns `None` before slicing in that case). -/
def jsonSlice (content : Str) : Str :=
  match firstIdxOf '\x7b' (stripWS content), lastIdxOf '\x7d' (stripWS content) with
  | some si, some li => ((stripWS content).drop si).take (li + 1 - si)
  | _, _ => []

/-- Model of `FileClassifier._parse_response` (classifier.py lines 91-124),
parameterized by `loads`, the embedding of `json.loads` on the slice:
`loads s = none` models a `JSONDecodeError` or any parse result that is not
an object with string-valued fields (all of which end in the function's
`except` branches and yield `None`); `loads s = some obj` models a parsed
JSON object with fields `obj`. -/
def parse_response (loads : Str → Option (List (Str × Str)))
    (content : Str) : Option (Str × Str) :=
  match firstIdxOf '\x7b' (stripWS content), lastIdxOf '\x7d' (stripWS content) with
  | some _, some _ =>
    match loads (jsonSlice content) with
    | none => none
    | some obj =>
      match List.lookup (str "category") obj,
            List.lookup (str "new_filename") obj with
      | some cat, some nf => some (clean_category cat, clean_filename nf)
      | _, _ => none
  | _, _ => none

/-- Python truthiness of an optional string (`if not extracted_text:` at
organize.py line 138): `None` and the empty string are falsy. -/
def isFalsyText : Option Str → Bool
  | none => true
  | some t => t.isEmpty

/-- Model of `FileClassifier.classify_file` (classifier.py lines 26-59),
parameterized by the model reply: `reply = none` models a transport/auth
exception from the API call (caught at classifier.py line 57), `reply =
some content` a completion whose message content is `content`.  The blank
check at line 37 precedes the API call, so in the blank case the result
does not depend on `reply` at all. -/
def classify_file (reply : Option Str)
    (loads : Str → Option (List (Str × Str)))
    (_filename text : Str) : Option (Str × Str) :=
  if text.isEmpty ∨ (stripWS text).isEmpty then none
  else
    match reply with
    | none => none
    | some content => parse_response loads content

/-- Claim C8: `classify_file` returns absent on blank input text without
consulting the model reply (the result is `none` and is independent of the
reply, the pure counterpart of "no network call is made"); and
`_parse_response` returns absent — rather than raising — when the reply has
no `\x7b`, no `\x7d`, when the located slice fails to parse, or when the
parsed object lacks the `category` or the `new_filename` field. -/
theorem classify_failure_modes (loads : Str → Option (List (Str × Str)))
    (fname text content : Str) :
    ((text.isEmpty ∨ (stripWS text).isEmpty) →
      ∀ r₁ r₂ : Option Str,
        classify_file r₁ loads fname text = none
        ∧ classify_file r₁ loads fname text = classify_file r₂ loads fname text)
    ∧ (firstIdxOf '\x7b' (stripWS content) = none →
        parse_response loads content = none)
    ∧ (lastIdxOf '\x7d' (stripWS content) = none →
        parse_response loads content = none)
    ∧ (loads (jsonSlice content) = none →
        parse_response loads content = none)
    ∧ (∀ obj, loads (jsonSlice content) = some obj →
        List.lookup (str "category") obj = none →
        parse_response loads content = none)
    ∧ (∀ obj, loads (jsonSlice content) = some obj →
        List.lookup (str "new_filename") obj = none →
        parse_response loads content = none) := by
  refine ⟨?_, ?_, ?_, ?_, ?_, ?_⟩
  · intro hb r₁ r₂
    have hb' : text = [] ∨ stripWS text = [] := by
      simpa using hb
    constructor <;> simp [classify_file, hb']
  · intro h
    unfold parse_response
    rw [h]
  · intro h
    unfold parse_response
    cases h1 : firstIdxOf '\x7b' (stripWS content) <;> simp [h]
  · intro h
    unfold parse_response
    cases h1 : firstIdxOf '\x7b' (stripWS content) <;>
      cases h2 : lastIdxOf '\x7d' (stripWS content) <;> simp [h1, h2, h]
  · intro obj hobj hcat
    unfold parse_response
    cases h1 : firstIdxOf '\x7b' (stripWS content) <;>
      cases h2 : lastIdxOf '\x7d' (stripWS content) <;> simp [h1, h2, hobj, hcat]
  · intro obj hobj hnf
    unfold parse_response
    cases h1 : firstIdxOf '\x7b' (stripWS content) <;>
      cases h2 : lastIdxOf '\x7d' (stripWS content) <;>
        simp [h1, h2, hobj, hnf]

/-- The `loads` stub that fails on every input (models a reply whose brace
slice is not valid JSON). -/
def loadsNone : Str → Option (List (Str × Str)) := fun _ => none

/-- Witness for `classify_failure_modes`: blank input text yields absent
regardless of the reply, and a reply with no braces yields absent. -/
theorem classify_failure_modes_witness :
    classify_file (some (str "ignored")) loadsNone (str "f.txt") (str "  ") = none
    ∧ parse_response loadsNone (str "no json here") = none :=
  ⟨((classify_failure_modes loadsNone (str "f.txt") (str "  ") (str "")).1
      (by decide) (some (str "ignored")) none).1,
   (classify_failure_modes loadsNone (str "f.txt") (str "x")
      (str "no json here")).2.1 (by decide)⟩

/-! ### Renamer placement (`renamer.py`, `FileRenamer.organize_file`) -/

/-- Model of `FileRenamer.organize_file` (renamer.py lines 20-62) on its success
path, parameterized by the filesystem existence check `ex` and the
timestamp `ts` the collision handler would use.  The target is
`output_base_path / sanitize_folder_name(category) /
(sanitize_filename(new_filename) + source_suffix)` after collision
resolution; the returned message embeds the path relative to the output
base.  The `except` branch of lines 59-62 (I/O failure) returns
`(False, None, error message)` and is not modelled here because the
modelled filesystem operations cannot fail. -/
def organize_file (ex : Str → Bool) (output_base_path source_suffix category
    new_filename : Str) (copy_mode : Bool) (ts : Nat) : Bool × Option Str × Str :=
  let category_folder := output_base_path ++ str "/" ++ sanitize_folder_name category
  let safe_filename := sanitize_filename new_filename
  let target_path := handle_naming_collision ex
    ⟨category_folder, safe_filename, source_suffix⟩ ts
  (true, some target_path,
    str "Successfully " ++ (if copy_mode then str "copied" else str "moved")
      ++ str " to " ++ target_path.drop (output_base_path.length + 1))

/-! ### Organizer pipeline (`organize.py`) -/

/-- The per-file result dictionary of `_process_single_file`
(organize.py lines 124-132).  `orig_stem`/`orig_suffix` record the split of
the original name that failure triage later performs via `Path.stem` /
`Path.suffix`; `original_name` is their concatenation. -/
structure FileOutcome where
  original_name : Str
  original_path : Str
  orig_stem : Str
  orig_suffix : Str
  success : Bool
  category : Option Str
  new_filename : Option Str
  new_path : Option Str
  error_message : Option Str
deriving DecidableEq

/-- The error message produced when organize.py line 154 calls
`FileRenamer.organize_file` with five positional arguments while the method
(renamer.py line 20) accepts only four: the call raises `TypeError` before
entering the renamer and is caught by the handler at organize.py line 172,
which prefixes `"Unexpected error: "`.  The exact interpreter wording
varies across Python versions; no theorem depends on the wording, only on
the outcome being a failure with this message present. -/
def organize_call_type_error : Str :=
  str "Unexpected error: organize_file() takes from 4 to 5 positional arguments but 6 were given"

/-- The freshly initialized result dictionary of organize.py lines
124-132. -/
def initial_outcome (name_stem name_suffix orig_path : Str) : FileOutcome :=
  { original_name := name_stem ++ name_suffix
    original_path := orig_path
    orig_stem := name_stem
    orig_suffix := name_suffix
    success := false
    category := none
    new_filename := none
    new_path := none
    error_message := none }

/-- Model of `SmartFileOrganizer._process_single_file` (organize.py lines 122-176),
with the external collaborators passed in: the extraction backends `b` and
the classifier's model reply and JSON parser.  In the non-dry-run branch
the source's call to `organize_file` raises `TypeError` (five positional
arguments against four parameters), so that branch finalizes the outcome
through the `except` handler of organize.py line 172 — after the
`category`/`new_filename` fields were already set at lines 149-150 — with
no filesystem effect. -/
def process_single_file (b : Backends) (reply : Option Str)
    (loads : Str → Option (List (Str × Str))) (dry_run : Bool)
    (name_stem name_suffix orig_path : Str) : FileOutcome :=
  if isFalsyText (extract_text b name_suffix).2 then
    { initial_outcome name_stem name_suffix orig_path with
        error_message := some (str "Could not extract text from "
          ++ (extract_text b name_suffix).1 ++ str " file") }
  else
    match classify_file reply loads (name_stem ++ name_suffix)
        ((extract_text b name_suffix).2.getD []) with
    | none =>
      { initial_outcome name_stem name_suffix orig_path with
          error_message := some (str "Could not classify file content") }
    | some (cat, nf) =>
      if dry_run then
        { initial_outcome name_stem name_suffix orig_path with
            success := true
            category := some cat
            new_filename := some nf
            new_path := some (str "DRY_RUN/" ++ cat ++ str "/" ++ nf ++ name_suffix) }
      else
        { initial_outcome name_stem name_suffix orig_path with
            category := some cat
            new_filename := some nf
            error_message := some organize_call_type_error }

/-- Claim C9: every FileOutcome produced by processing one file ends in
exactly one of the two complete states — fully successful (success set,
final path present, no error message) or fully failed (no success, no final
path, an error message present) — for every combination of collaborator
behaviours and both run modes. -/
theorem file_outcome_no_partial_states (b : Backends) (reply : Option Str)
    (loads : Str → Option (List (Str × Str))) (dry_run : Bool)
    (name_stem name_suffix orig_path : Str) :
    ((process_single_file b reply loads dry_run name_stem name_suffix orig_path).success = true
      ∧ (process_single_file b reply loads dry_run name_stem name_suffix orig_path).new_path.isSome = true
      ∧ (process_single_file b reply loads dry_run name_stem name_suffix orig_path).error_message = none)
    ∨ ((process_single_file b reply loads dry_run name_stem name_suffix orig_path).success = false
      ∧ (process_single_file b reply loads dry_run name_stem name_suffix orig_path).new_path = none
      ∧ (process_single_file b reply loads dry_run name_stem name_suffix orig_path).error_message.isSome = true) := by
  unfold process_single_file
  split
  · exact Or.inr ⟨rfl, rfl, rfl⟩
  · split
    · exact Or.inr ⟨rfl, rfl, rfl⟩
    · split
      · exact Or.inl ⟨rfl, rfl, rfl⟩
      · exact Or.inr ⟨rfl, rfl, rfl⟩

/-- Claim C6 (amended): in dry-run mode, when extraction yields usable text
and classification returns `(cat, nf)`, the outcome is marked fully
successful and the placeholder path is literally
`DRY_RUN/<cat>/<nf><suffix>`, built from the classification's values as
cleaned by the classifier itself — organize.py line 170 applies no renamer
sanitization, so the components need not satisfy `sanitize_folder_name` /
`sanitize_filename` postconditions (refuted at a concrete input by
`dry_run_path_not_sanitized`). -/
theorem dry_run_outcome (b : Backends) (reply : Option Str)
    (loads : Str → Option (List (Str × Str)))
    (name_stem name_suffix orig_path cat nf : Str)
    (hf : isFalsyText (extract_text b name_suffix).2 = false)
    (hc : classify_file reply loads (name_stem ++ name_suffix)
        ((extract_text b name_suffix).2.getD []) = some (cat, nf)) :
    (process_single_file b reply loads true name_stem name_suffix orig_path).success = true
    ∧ (process_single_file b reply loads true name_stem name_suffix orig_path).error_message = none
    ∧ (process_single_file b reply loads true name_stem name_suffix orig_path).new_path =
        some (str "DRY_RUN/" ++ cat ++ str "/" ++ nf ++ name_suffix) := by
  unfold process_single_file
  rw [hc]
  simp [hf, initial_outcome]

/-- The `loads` stub used in the dry-run counterexample: the model reply
`\x7bJ\x7d` parses to a JSON object whose category contains a colon —
a value `_clean_category` (classifier.py line 131) leaves untouched. -/
def loadsColon : Str → Option (List (Str × Str)) :=
  fun s =>
    if s = str "\x7bJ\x7d" then
      some [(str "category", str "A:B"), (str "new_filename", str "x")]
    else none

/-- Claim C6 counterexample: with a classification category `A:B`, the
dry-run placeholder is `DRY_RUN/A:B/x.txt` — the colon survives because
organize.py line 170 uses the raw classification values — while the claimed
path through the renamer sanitizers would be `DRY_RUN/A_B/x.txt`. -/
theorem dry_run_path_not_sanitized :
    (process_single_file ⟨none, none, none, some (str "hello")⟩
        (some (str "\x7bJ\x7d")) loadsColon true (str "doc") (str ".txt")
        (str "in/doc.txt")).new_path = some (str "DRY_RUN/A:B/x.txt")
    ∧ str "DRY_RUN/A:B/x.txt" ≠
        str "DRY_RUN/" ++ sanitize_folder_name (str "A:B") ++ str "/"
          ++ sanitize_filename (str "x") ++ str ".txt" := by decide

/-- Witness for `dry_run_outcome` at a concrete input. -/
theorem dry_run_outcome_witness :
    (process_single_file ⟨none, none, none, some (str "hello")⟩
        (some (str "\x7bJ\x7d")) loadsColon true (str "doc") (str ".txt")
        (str "in/doc.txt")).success = true :=
  (dry_run_outcome ⟨none, none, none, some (str "hello")⟩
      (some (str "\x7bJ\x7d")) loadsColon (str "doc") (str ".txt")
      (str "in/doc.txt") (str "A:B") (str "x") (by decide) (by decide)).1

/-- The `loads` stub for the spec's end-to-end Uber example. -/
def uberLoads : Str → Option (List (Str × Str)) :=
  fun s =>
    if s = str "\x7bU\x7d" then
      some [(str "category", str "Uber Receipts"),
            (str "new_filename", str "uber_ride_receipt_2024-01-15")]
    else none

set_option maxRecDepth 16384 in
/-- Claim C1 evaluation (code bug): the spec's end-to-end example fed
through the pipeline in non-dry-run mode yields a FAILED outcome with an
`Unexpected error` message and no placement, because organize.py line 154
passes five positional arguments (including `extracted_text`) to
`FileRenamer.organize_file`, which accepts only four (renamer.py line 20) —
the `TypeError` is caught at organize.py line 172 and the renamer never
runs.  The renamer invoked per its own signature would return exactly the
path the claim requires, `out/Uber Receipts/uber_ride_receipt_2024-01-15.txt`,
as the last conjunct shows. -/
theorem pipeline_placement_type_error :
    (process_single_file
        ⟨none, none, none, some (str "Uber ride receipt total $12.50 2024-01-15")⟩
        (some (str "\x7bU\x7d")) uberLoads false (str "receipt") (str ".txt")
        (str "in/receipt.txt")).success = false
    ∧ (process_single_file
        ⟨none, none, none, some (str "Uber ride receipt total $12.50 2024-01-15")⟩
        (some (str "\x7bU\x7d")) uberLoads false (str "receipt") (str ".txt")
        (str "in/receipt.txt")).new_path = none
    ∧ (process_single_file
        ⟨none, none, none, some (str "Uber ride receipt total $12.50 2024-01-15")⟩
        (some (str "\x7bU\x7d")) uberLoads false (str "receipt") (str ".txt")
        (str "in/receipt.txt")).error_message = some organize_call_type_error
    ∧ (organize_file (fun _ => false) (str "out") (str ".txt")
        (str "Uber Receipts") (str "uber_ride_receipt_2024-01-15") true 0).2.1 =
      some (str "out/Uber Receipts/uber_ride_receipt_2024-01-15.txt") := by decide

/-- Claim C7 (amended): each backend's result is stripped of surrounding
whitespace when nonempty; an EMPTY backend result is normalized to absence;
a nonempty all-whitespace backend result becomes the empty string rather
than absence (see `extract_whitespace_not_absent`), but the pipeline's
truthiness check treats the empty string exactly like absence, so such a
file is still recorded as an extraction failure. -/
theorem extract_normalization (b : Backends) (t : Str) (reply : Option Str)
    (loads : Str → Option (List (Str × Str))) (dry_run : Bool)
    (name_stem orig_path : Str) (hb : b.txt = some t) :
    (extract_text b (str ".txt")).2 = (if t.isEmpty then none else some (stripWS t))
    ∧ (stripWS t = [] →
        isFalsyText (extract_text b (str ".txt")).2 = true
        ∧ (process_single_file b reply loads dry_run name_stem (str ".txt")
            orig_path).success = false
        ∧ (process_single_file b reply loads dry_run name_stem (str ".txt")
            orig_path).error_message =
          some (str "Could not extract text from text file")) := by
  have hft : extract_text b (str ".txt") = (str "text", backend_normalize b.txt) := rfl
  have h1 : (extract_text b (str ".txt")).2 =
      (if t.isEmpty then none else some (stripWS t)) := by
    rw [hft, hb]
    rfl
  refine ⟨h1, ?_⟩
  intro hws
  have h2 : isFalsyText (extract_text b (str ".txt")).2 = true := by
    rw [h1]
    by_cases ht : t.isEmpty
    · simp [ht, isFalsyText]
    · simp [ht, isFalsyText, hws]
  refine ⟨h2, ?_, ?_⟩
  · unfold process_single_file
    rw [if_pos h2]
    simp [initial_outcome]
  · unfold process_single_file
    rw [if_pos h2]
    have h3 : (extract_text b (str ".txt")).1 = str "text" := by rw [hft]
    simp only [h3, initial_outcome]
    decide

/-- Witness for `extract_normalization`: a txt file whose content is a
single space ends as a failed outcome with the extraction-failure
message. -/
theorem extract_normalization_witness :
    (process_single_file ⟨none, none, none, some (str " ")⟩ none loadsNone false
        (str "blank") (str ".txt") (str "in/blank.txt")).success = false :=
  ((extract_normalization ⟨none, none, none, some (str " ")⟩ (str " ") none
      loadsNone false (str "blank") (str "in/blank.txt") rfl).2 (by decide)).2.1

/-! ### Filesystem effects: run-trace semantics (`organize.py` / `renamer.py`) -/

/-- A filesystem mutation performed by the program.  Reads (discovery,
text extraction) are not mutations and do not appear in traces. -/
inductive FsOp where
  | mkdirp : Str → FsOp
  | copy : Str → Str → FsOp
  | move : Str → Str → FsOp
  | write : Str → Str → FsOp
deriving DecidableEq

/-- Filesystem state: the list of existing paths (directories and files).
`mkdir(parents=True, exist_ok=True)` is modelled as inserting the directory
path itself; ancestor bookkeeping is not needed by any claim. -/
def applyOp (state : List Str) : FsOp → List Str
  | .mkdirp p => if state.contains p then state else p :: state
  | .copy _ t => if state.contains t then state else t :: state
  | .move s t =>
    let st := state.filter (fun q => decide (q ≠ s))
    if st.contains t then st else t :: st
  | .write p _ => if state.contains p then state else p :: state

/-- Apply a trace of mutations in order. -/
def applyOps (state : List Str) (ops : List FsOp) : List Str :=
  ops.foldl applyOp state

/-- The message used for triage: `file_info['error_message'] or
"Unknown error"` (organize.py line 198); Python `or` also replaces the
empty string. -/
def triage_message (f : FileOutcome) : Str :=
  match f.error_message with
  | none => str "Unknown error"
  | some m => if m.isEmpty then str "Unknown error" else m

/-- The bucket assignment of organize.py lines 201-209: substring matching
on the lowercased error message. -/
def error_category_of (msg : Str) : Str :=
  if containsSub (str "extract text") (lowerStr msg) then
    str "text_extraction_failed"
  else if containsSub (str "classify") (lowerStr msg) then
    str "classification_failed"
  else if containsSub (str "unsupported") (lowerStr msg) then
    str "unsupported_format"
  else str "processing_error"

/-- The sidecar report written at organize.py lines 226-230 (four labeled
lines: original path, bucket, message, timestamp). -/
def sidecar_content (orig_path bucket msg now : Str) : Str :=
  str "Original file: " ++ orig_path ++ str "\n"
    ++ str "Error category: " ++ bucket ++ str "\n"
    ++ str "Error message: " ++ msg ++ str "\n"
    ++ str "Processing date: " ++ now ++ str "\n"

/-- The per-file loop of `_organize_failed_files` (organize.py lines
197-233), threading the filesystem state so each collision check sees the
paths already created.  In copy mode the original is copied to a
collision-resolved target under the bucket folder and the sidecar
`<target>.error_info.txt` is written (`with_suffix` at organize.py line 225
appends `.error_info.txt` to the target's name); when `copy_mode` is false
the guard at organize.py line 217 skips both the copy and the sidecar,
leaving only the bucket `mkdir` of line 213. -/
def triage_failed (copy_mode : Bool) (outputRoot now : Str) (ts : Nat) :
    List Str → List FileOutcome → List FsOp
  | _, [] => []
  | state, f :: rest =>
    let bucket := error_category_of (triage_message f)
    let sub := outputRoot ++ str "/_Errors/" ++ bucket
    let state1 := applyOp state (.mkdirp sub)
    if copy_mode then
      let target := handle_naming_collision (fun p => state1.contains p)
        ⟨sub, f.orig_stem, f.orig_suffix⟩ ts
      let sidecar := target ++ str ".error_info.txt"
      let content := sidecar_content f.original_path bucket (triage_message f) now
      FsOp.mkdirp sub :: FsOp.copy f.original_path target
        :: FsOp.write sidecar content
        :: triage_failed copy_mode outputRoot now ts
            (applyOps state1 [FsOp.copy f.original_path target,
              FsOp.write sidecar content]) rest
    else
      FsOp.mkdirp sub :: triage_failed copy_mode outputRoot now ts state1 rest

/-- Model of `SmartFileOrganizer._organize_failed_files` (organize.py lines
178-233): filter the failed outcomes, return without touching the
filesystem when there are none, otherwise create `_Errors` and triage each
failed file. -/
def organize_failed_files (copy_mode : Bool) (outputRoot now : Str) (ts : Nat)
    (state : List Str) (processed : List FileOutcome) : List FsOp :=
  if (processed.filter (fun f => !f.success)).isEmpty then []
  else
    FsOp.mkdirp (outputRoot ++ str "/_Errors")
      :: triage_failed copy_mode outputRoot now ts
          (applyOp state (.mkdirp (outputRoot ++ str "/_Errors")))
          (processed.filter (fun f => !f.success))

theorem triage_failed_move_only_mkdirp (outputRoot now : Str) (ts : Nat) :
    ∀ (failed : List FileOutcome) (state : List Str) (op : FsOp),
      op ∈ triage_failed false outputRoot now ts state failed →
      ∃ p, op = FsOp.mkdirp p := by
  intro failed
  induction failed with
  | nil =>
    intro state op h
    simp [triage_failed] at h
  | cons f rest ih =>
    intro state op h
    simp only [triage_failed, Bool.false_eq_true, if_false] at h
    rcases List.mem_cons.mp h with h | h
    · exact ⟨_, h⟩
    · exact ih _ op h

/-- Claim C3 (amended): failure triage in COPY mode copies (never moves)
each failed file into `outputRoot/_Errors/<bucket>/` at a target resolved
by the same collision handler as successful placement, and writes the
sidecar recording original path, bucket, message and timestamp; but when
the run mode is MOVE (`copy_mode` false), the guard at organize.py line 217
skips the copy and the sidecar entirely — triage then only creates
directories, so the original claim's "regardless of whether the run mode is
copy or move" fails (refuted concretely by `triage_move_mode_no_copy`). -/
theorem organize_failed_files_spec (outputRoot now : Str) (ts : Nat)
    (state : List Str) (f : FileOutcome) (hf : f.success = false) :
    (organize_failed_files true outputRoot now ts state [f] =
      [FsOp.mkdirp (outputRoot ++ str "/_Errors"),
       FsOp.mkdirp (outputRoot ++ str "/_Errors/"
         ++ error_category_of (triage_message f)),
       FsOp.copy f.original_path
         (handle_naming_collision
           (fun p => (applyOp
             (applyOp state (.mkdirp (outputRoot ++ str "/_Errors")))
             (.mkdirp (outputRoot ++ str "/_Errors/"
               ++ error_category_of (triage_message f)))).contains p)
           ⟨outputRoot ++ str "/_Errors/" ++ error_category_of (triage_message f),
            f.orig_stem, f.orig_suffix⟩ ts),
       FsOp.write
         (handle_naming_collision
           (fun p => (applyOp
             (applyOp state (.mkdirp (outputRoot ++ str "/_Errors")))
             (.mkdirp (outputRoot ++ str "/_Errors/"
               ++ error_category_of (triage_message f)))).contains p)
           ⟨outputRoot ++ str "/_Errors/" ++ error_category_of (triage_message f),
            f.orig_stem, f.orig_suffix⟩ ts ++ str ".error_info.txt")
         (sidecar_content f.original_path
           (error_category_of (triage_message f)) (triage_message f) now)])
    ∧ (∀ processed op,
        op ∈ organize_failed_files false outputRoot now ts state processed →
        ∃ p, op = FsOp.mkdirp p) := by
  constructor
  · simp [organize_failed_files, triage_failed, hf]
  · intro processed op h
    unfold organize_failed_files at h
    split at h
    · simp at h
    · rcases List.mem_cons.mp h with h | h
      · exact ⟨_, h⟩
      · exact triage_failed_move_only_mkdirp outputRoot now ts _ _ op h

/-- A concrete failed outcome (classification failure) used to refute the
original C3 claim in move mode. -/
def failedOutcome0 : FileOutcome :=
  { original_name := str "a.txt"
    original_path := str "in/a.txt"
    orig_stem := str "a"
    orig_suffix := str ".txt"
    success := false
    category := none
    new_filename := none
    new_path := none
    error_message := some (str "Could not classify file content") }

/-- Claim C3 counterexample: in move mode (`copy_mode` false) triage of a
failed file performs only the two `mkdir`s — no copy into
`_Errors/<bucket>/`, no sidecar — contradicting "copied ... regardless of
whether the run mode is copy or move". -/
theorem triage_move_mode_no_copy :
    organize_failed_files false (str "out") (str "T0") 0 [] [failedOutcome0] =
      [FsOp.mkdirp (str "out/_Errors"),
       FsOp.mkdirp (str "out/_Errors/classification_failed")] := by decide

/-- Witness for `organize_failed_files_spec` at a concrete failed file:
copy mode produces exactly mkdir, mkdir, copy, sidecar write. -/
theorem organize_failed_files_spec_witness :
    organize_failed_files true (str "out") (str "T0") 0 [] [failedOutcome0] =
      [FsOp.mkdirp (str "out/_Errors"),
       FsOp.mkdirp (str "out/_Errors/classification_failed"),
       FsOp.copy (str "in/a.txt") (str "out/_Errors/classification_failed/a.txt"),
       FsOp.write (str "out/_Errors/classification_failed/a.txt.error_info.txt")
         (sidecar_content (str "in/a.txt") (str "classification_failed")
           (str "Could not classify file content") (str "T0"))] := by
  have h := (organize_failed_files_spec (str "out") (str "T0") 0 []
    failedOutcome0 rfl).1
  rw [h]
  decide

/-! ### Whole-run trace (`SmartFileOrganizer.__init__` / `organize_folder`) -/

/-- One discovered file: the `Path.stem`/`Path.suffix` split of its name,
its path, and the behaviour of the external collaborators on it. -/
structure FileInput where
  stem : Str
  suffix : Str
  path : Str
  backends : Backends
  reply : Option Str
  loads : Str → Option (List (Str × Str))

/-- Per-file filesystem mutations of `_process_single_file`: none in either
mode — dry-run skips placement by design (organize.py lines 167-170), and
the non-dry-run branch raises `TypeError` at the organize.py line 154 call
before the renamer performs any I/O (see `organize_call_type_error`). -/
def process_single_file_ops (_dry_run : Bool) : List FsOp := []

/-- A whole run.  `SmartFileOrganizer.__init__` (organize.py lines 44-49)
constructs a `FileRenamer` unconditionally — whose constructor
(renamer.py lines 16-18) performs `mkdir(parents=True, exist_ok=True)` on
the output root regardless of `dry_run`; then `organize_folder`
(organize.py lines 51-108) processes each file in order and, only when not
in dry-run mode (line 105), runs failure triage over the outcomes. -/
def run_organizer (dry_run copy_mode : Bool) (outputRoot now : Str) (ts : Nat)
    (state0 : List Str) (files : List FileInput) : List FsOp :=
  [FsOp.mkdirp outputRoot]
    ++ (files.map (fun _ => process_single_file_ops dry_run)).flatten
    ++ (if dry_run then []
        else organize_failed_files copy_mode outputRoot now ts
          (applyOps state0 [FsOp.mkdirp outputRoot])
          (files.map (fun f => process_single_file f.backends f.reply f.loads
            dry_run f.stem f.suffix f.path)))

/-- Claim C2 (amended): in dry-run mode the only filesystem mutation of a
whole run is the creation of the output root performed unconditionally by
the renamer constructor; the processing pass and triage mutate nothing, so
the post-state is the pre-state with at most the output root added.  The
original claim's "filesystem state is unchanged from before the run" is
refuted by `dry_run_creates_output_root`. -/
theorem dry_run_trace (copy_mode : Bool) (outputRoot now : Str) (ts : Nat)
    (state0 : List Str) (files : List FileInput) :
    run_organizer true copy_mode outputRoot now ts state0 files =
      [FsOp.mkdirp outputRoot]
    ∧ applyOps state0 (run_organizer true copy_mode outputRoot now ts state0 files) =
        (if state0.contains outputRoot then state0 else outputRoot :: state0) := by
  have hflat : ∀ (l : List FileInput),
      (l.map (fun _ => process_single_file_ops true)).flatten = [] := by
    intro l
    induction l with
    | nil => rfl
    | cons a t ih => simpa [process_single_file_ops] using ih
  have h1 : run_organizer true copy_mode outputRoot now ts state0 files =
      [FsOp.mkdirp outputRoot] := by
    unfold run_organizer
    rw [hflat files]
    simp
  exact ⟨h1, by rw [h1]; rfl⟩

/-- Claim C2 counterexample: a dry run whose output root `out` does not yet
exist changes the filesystem — the constructor's `mkdir` creates `out` —
so the state after the run differs from the state before it. -/
theorem dry_run_creates_output_root :
    applyOps [] (run_organizer true true (str "out") (str "now") 0 [] []) =
      [str "out"]
    ∧ ([str "out"] : List Str) ≠ [] := by decide

example : sanitize_filename (str "a  b") = str "a_b" := by decide
example : sanitize_filename (str "  ") = str "unnamed_file" := by decide
example : sanitize_filename (str "a/b:c") = str "a_b_c" := by decide
example : sanitize_filename (str "_x_.") = str "x" := by decide
example : sanitize_folder_name (str "A/B") = str "A_B" := by decide
example : sanitize_folder_name (str "") = str "Uncategorized" := by decide
example : sanitize_folder_name (str "Uber Receipts") = str "Uber Receipts" := by
  decide

end SFO
